import Mathlib

/-!
Verification development for the ORION_IDKG data-ingestion loaders.

The embedding follows the two source files:
  * `src/parsers/Reactome/src/loadReactome.py` (class `ReactomeLoader`)
  * `src/parsers/hgnc/src/loadHGNC.py` (class `HGNCLoader`)

Python effects are made explicit:
  * an uncaught Python exception (`KeyError`, `IndexError`) is `Except.error`;
  * writes to the output sink (`write_kgx_node` / `write_kgx_edge`) and
    `logger.warning` calls are collected in result structures;
  * the neo4j session is an opaque environment function from the submitted
    query to the list of returned records (pure, as the spec treats the
    raw-data source as an opaque synchronous collaborator).
-/

set_option maxRecDepth 8192

deriving instance DecidableEq for Except

/-- Python truthiness of an optional string (`if x:` where `x` is `None` or a
`str`): `None` and the empty string are falsy. -/
def pyTruthyOpt : Option String → Bool
  | none => false
  | some s => !(s == "")

/-- First-match lookup in an association list; models `dict[k]` / `dict.get(k)`
on a Python dict whose keys are unique. -/
def lookupAssoc (m : List (String × String)) (k : String) : Option String :=
  (m.find? (fun kv => kv.1 == k)).map (fun kv => kv.2)

/-- Characters removed by Python `str.strip()` (the whitespace forms that occur
in the rule-table file). -/
def isPySpace (c : Char) : Bool :=
  c == ' ' || c == '\t' || c == '\n' || c == '\r'

/-- Python `str.strip()` on the character list of a string. -/
def pyStripChars (cs : List Char) : List Char :=
  ((cs.dropWhile isPySpace).reverse.dropWhile isPySpace).reverse

/-- Splitting a character list at a separator character; `[]` yields `[[]]`,
matching Python `''.split(sep) = ['']`. -/
def splitSepAux (sep : Char) : List Char → List (List Char)
  | [] => [[]]
  | c :: rest =>
    let r := splitSepAux sep rest
    if c == sep then [] :: r
    else
      match r with
      | [] => [[c]]
      | g :: gs => (c :: g) :: gs

/-- Python `s.split(sep)` for a single-character separator. -/
def pySplitOn (sep : Char) (s : String) : List String :=
  (splitSepAux sep s.toList).map (fun g => String.mk g)

/-- Python `line.strip().split(',')` as used on each rule-table row. -/
def pyStripSplit (line : String) : List String :=
  (splitSepAux ',' (pyStripChars line.toList)).map (fun g => String.mk g)

/-
Curie prefix constants. Modelled from the spec: these are imported from
`Common/prefixes.py`, which is not under src. The spec fixes the Species form
`NCBITAXON:<taxId>` and the reactome-normalized form `REACTOME:<stId>`; the
remaining prefixes are opaque nonempty namespace strings used only through
`CURIE_PREFIX_MAPPING`.
-/

/-- Modelled from the spec: curie prefix for NCBI taxonomy identifiers
(`Common.prefixes.NCBITAXON` is not under src; the spec writes
`NCBITAXON:<taxId>`). -/
def NCBITAXON : String := "NCBITAXON"

/-- Modelled from the spec: curie prefix for Reactome stable identifiers
(`Common.prefixes.REACTOME` is not under src; the spec writes
`REACTOME:<stId>`). -/
def REACTOME : String := "REACTOME"

/-- Modelled from the spec: curie prefix constant from `Common.prefixes`
(not under src). -/
def UNIPROTKB : String := "UniProtKB"

/-- Modelled from the spec: curie prefix constant from `Common.prefixes`
(not under src). -/
def GTOPDB : String := "GTOPDB"

/-- Modelled from the spec: curie prefix constant from `Common.prefixes`
(not under src). -/
def CHEBI : String := "CHEBI"

/-- Modelled from the spec: curie prefix constant from `Common.prefixes`
(not under src). -/
def KEGG_COMPOUND : String := "KEGG.COMPOUND"

/-- Modelled from the spec: curie prefix constant from `Common.prefixes`
(not under src). -/
def KEGG_GLYCAN : String := "KEGG.GLYCAN"

/-- Modelled from the spec: curie prefix constant from `Common.prefixes`
(not under src). -/
def PUBCHEM_COMPOUND : String := "PUBCHEM.COMPOUND"

/-- Modelled from the spec: curie prefix constant from `Common.prefixes`
(not under src). -/
def NCBIGENE : String := "NCBIGene"

/-- Modelled from the spec: curie prefix constant from `Common.prefixes`
(not under src). -/
def CLINVAR : String := "CLINVAR"

/-- Modelled from the spec: curie prefix constant from `Common.prefixes`
(not under src), used by the HGNC loader for gene-family curies. -/
def HGNC_FAMILY : String := "HGNC.FAMILY"

/-- `PREDICATE_MAPPING` from loadReactome.py: raw relationship label to
biolink predicate. -/
def PREDICATE_MAPPING : List (String × String) :=
  [("compartment", "biolink:occurs_in"),
   ("output", "biolink:has_output"),
   ("input", "biolink:has_input"),
   ("hasEvent", "biolink:contains_process"),
   ("precedingEvent", "biolink:precedes"),
   ("activeUnit", "biolink:actively_involves"),
   ("hasComponent", "biolink:has_part"),
   ("catalystActivity", "biolink:actively_involves"),
   ("cellType", "biolink:located_in"),
   ("goBiologicalProcess", "biolink:subclass_of"),
   ("disease", "biolink:disease_has_basis_in")]

/-- `CURIE_PREFIX_MAPPING` from loadReactome.py: reactome databaseName to
normalizer-preferred curie prefix. -/
def CURIE_PREFIX_MAPPING : List (String × String) :=
  [("UniProt", UNIPROTKB),
   ("Guide to Pharmacology", GTOPDB),
   ("ChEBI", CHEBI),
   ("REACT", REACTOME),
   ("COMPOUND", KEGG_COMPOUND),
   ("PubChem Compound", PUBCHEM_COMPOUND),
   ("PubChem Substance", PUBCHEM_COMPOUND),
   ("KEGG Glycan", KEGG_GLYCAN),
   ("NCBI Entrez Gene", NCBIGENE),
   ("ClinVar", CLINVAR)]

/-- `NORMALIZED_NODES` from loadReactome.py. -/
def NORMALIZED_NODES : List String :=
  ["ReactionLikeEvent", "Pathway", "Event", "BlackboxEvent", "FailedReaction",
   "Depolymerisation", "Polymerisation"]

/-- `ON_NODE_MAPPING` from loadReactome.py. -/
def ON_NODE_MAPPING : List String :=
  ["GO_Term", "Species", "ExternalOntology", "ReferenceTherapeutic",
   "ReferenceMolecule", "ReferenceSequence", "Disease"]

/-- `CROSS_MAPPING` from loadReactome.py. -/
def CROSS_MAPPING : List String :=
  ["EntityWithAccessionedSequence", "GenomeEncodedEntity", "SimpleEntity",
   "Drug", "Complex", "Polymer"]

/-- `TO_WRITE` from loadReactome.py. -/
def TO_WRITE : List String := ["Provenance/Include", "Attribute/Include"]

/-- `TO_MAP` from loadReactome.py. -/
def TO_MAP : List String := ["IDMapping/Include"]

/-- `TO_INCLUDE` from loadReactome.py. -/
def TO_INCLUDE : List String := ["Include"]

/-- `RDF_EDGES_TO_INCLUDE` from loadReactome.py. -/
def RDF_EDGES_TO_INCLUDE : List String := ["RDF_edges/Include"]

/-- `TO_SWITCH` from loadReactome.py. -/
def TO_SWITCH : List String := ["Include/SwitchSO"]

/-- `ReactomeLoader.provenance_id`. -/
def provenance_id : String := "infores:reactome"

/-- Output node shape. Modelled from the spec: `Common.kgxmodel.kgxnode` is
not under src; the spec gives (identifier, display name, property mapping). -/
structure kgxnode where
  id : String
  name : String
  nodeprops : List (String × String)
deriving DecidableEq

/-- Output edge shape. Modelled from the spec: `Common.kgxmodel.kgxedge` is
not under src. The Reactome loader fills `predicate` and
`primary_knowledge_source`; the HGNC loader fills `relation` and `edgeprops`. -/
structure kgxedge where
  subject_id : String
  object_id : String
  predicate : Option String
  relation : Option String
  primary_knowledge_source : Option String
  edgeprops : List (String × List String)
deriving DecidableEq

/-- A `logger.warning` event of the Reactome loader. The constructors carry
exactly the data interpolated into the two warning messages of
`process_node_from_neo4j` and `process_edge_from_neo4j`. -/
inductive LogWarning where
  | nodeNotMapped (node_identity : Nat) (labels : List String)
  | predicateNotMapped (relationship_type : String)
deriving DecidableEq

/-- Property mapping of a retrieved neo4j entity. -/
def PropMap := List (String × String)
deriving DecidableEq

/-- One record pair returned by the neo4j session for the queries the loader
builds: `record.data()` with columns `a_id, a, a_labels, r_type, b_id, b,
b_labels`. -/
structure NeoRecord where
  a_id : Nat
  a : PropMap
  a_labels : List String
  r_type : String
  b_id : Nat
  b : PropMap
  b_labels : List String
deriving DecidableEq

/-- The `try`/`except` pattern of `process_node_from_neo4j` (and its GO_Term
variant): the `try` block reads `node['databaseName']`, looks it up in
`CURIE_PREFIX_MAPPING` and reads the local-part key; on any exception the
`except` block re-reads `node['databaseName']` and the local-part key, so a
missing key raises again in the fallback and the `KeyError` escapes, while an
unknown database name falls back to `databaseName:local`. -/
def curie_or_fallback (node : PropMap) (localKey : String) :
    Except String (Option String) :=
  match lookupAssoc node "databaseName", lookupAssoc node localKey with
  | some databaseName, some localVal =>
    match lookupAssoc CURIE_PREFIX_MAPPING databaseName with
    | some pfx => .ok (some (pfx ++ ":" ++ localVal))
    | none => .ok (some (databaseName ++ ":" ++ localVal))
  | _, _ => .error ("KeyError: " ++ localKey ++ " or databaseName")

/-- The `node_id` computation of `ReactomeLoader.process_node_from_neo4j`
(lines 265-281): on-node/cross-mapping labels first (Species, then GO_Term,
then the databaseName+identifier default), else the reactome-normalized
`stId` branch, else `None`. `node['taxId']` / `node['stId']` are bare dict
reads, so a missing key is an uncaught `KeyError`. -/
def compute_node_id (node : PropMap) (node_labels : List String) :
    Except String (Option String) :=
  if node_labels.any (fun x => ON_NODE_MAPPING.contains x)
      || node_labels.any (fun x => CROSS_MAPPING.contains x) then
    if node_labels.contains "Species" then
      match lookupAssoc node "taxId" with
      | some taxId => .ok (some (NCBITAXON ++ ":" ++ taxId))
      | none => .error "KeyError: taxId"
    else if node_labels.contains "GO_Term" then
      curie_or_fallback node "accession"
    else
      curie_or_fallback node "identifier"
  else if node_labels.any (fun x => NORMALIZED_NODES.contains x) then
    match lookupAssoc node "stId" with
    | some stId => .ok (some (REACTOME ++ ":" ++ stId))
    | none => .error "KeyError: stId"
  else
    .ok none

/-- The carried-over descriptive properties assembled by
`process_node_from_neo4j` (lines 286-290): `definition` and `url` when
present. -/
def node_properties_of (node : PropMap) : List (String × String) :=
  (match lookupAssoc node "definition" with
   | some v => [("definition", v)]
   | none => []) ++
  (match lookupAssoc node "url" with
   | some v => [("url", v)]
   | none => [])

/-- `node['displayName'] if 'displayName' in node else ''` (line 291). -/
def node_name_of (node : PropMap) : String :=
  (lookupAssoc node "displayName").getD ""

/-- Result of `process_node_from_neo4j`: the returned id (or `None`), the
nodes written to the output sink, and the warnings logged. -/
structure NodeOut where
  node_id : Option String
  nodes : List kgxnode
  warnings : List LogWarning
deriving DecidableEq

/-- `ReactomeLoader.process_node_from_neo4j`: compute the node id; if falsy
(`if not node_id:`), log a warning and return `None`; otherwise build the
kgx node, write it to the output sink immediately and return the id. An
exception from the id computation propagates. -/
def process_node_from_neo4j (node_identity : Nat) (node : PropMap)
    (node_labels : List String) : Except String NodeOut :=
  match compute_node_id node node_labels with
  | .error e => .error e
  | .ok none => .ok ⟨none, [], [.nodeNotMapped node_identity node_labels]⟩
  | .ok (some nid) =>
    if nid = "" then
      .ok ⟨none, [], [.nodeNotMapped node_identity node_labels]⟩
    else
      .ok ⟨some nid, [⟨nid, node_name_of node, node_properties_of node⟩], []⟩

/-- Result of `process_edge_from_neo4j`: edges written and warnings logged. -/
structure EdgeOut where
  edges : List kgxedge
  warnings : List LogWarning
deriving DecidableEq

/-- `ReactomeLoader.process_edge_from_neo4j`: `PREDICATE_MAPPING.get` the
relationship type; if truthy, write the kgx edge with the loader provenance;
else log a warning naming the relationship type and write nothing. -/
def process_edge_from_neo4j (subject_id : String) (relationship_type : String)
    (object_id : String) : EdgeOut :=
  match lookupAssoc PREDICATE_MAPPING relationship_type with
  | some predicate =>
    if predicate = "" then ⟨[], [.predicateNotMapped relationship_type]⟩
    else ⟨[⟨subject_id, object_id, some predicate, none, some provenance_id, []⟩], []⟩
  | none => ⟨[], [.predicateNotMapped relationship_type]⟩

/-- Aggregate result of `write_neo4j_result_to_file`: the two returned
counters plus the nodes, edges and warnings emitted while processing. -/
structure WriteOut where
  record_count : Nat
  skipped_record_count : Nat
  nodes : List kgxnode
  edges : List kgxedge
  warnings : List LogWarning
deriving DecidableEq

/-- Sequential combination of two `WriteOut`s (earlier records first). -/
def combineWrite (x y : WriteOut) : WriteOut :=
  ⟨x.record_count + y.record_count,
   x.skipped_record_count + y.skipped_record_count,
   x.nodes ++ y.nodes, x.edges ++ y.edges, x.warnings ++ y.warnings⟩

/-- The loop body of `write_neo4j_result_to_file` (lines 251-260): process
both endpoints (both calls always happen, in order), and if both ids are
truthy (`if node_a_id and node_b_id:`) process the edge and count the record,
else count it skipped. -/
def processRecord (rec : NeoRecord) : Except String WriteOut :=
  match process_node_from_neo4j rec.a_id rec.a rec.a_labels with
  | .error e => .error e
  | .ok aOut =>
    match process_node_from_neo4j rec.b_id rec.b rec.b_labels with
    | .error e => .error e
    | .ok bOut =>
      match aOut.node_id, bOut.node_id with
      | some aid, some bid =>
        if aid = "" ∨ bid = "" then
          .ok ⟨0, 1, aOut.nodes ++ bOut.nodes, [],
               aOut.warnings ++ bOut.warnings⟩
        else
          let eOut := process_edge_from_neo4j aid rec.r_type bid
          .ok ⟨1, 0, aOut.nodes ++ bOut.nodes, eOut.edges,
               aOut.warnings ++ bOut.warnings ++ eOut.warnings⟩
      | _, _ =>
        .ok ⟨0, 1, aOut.nodes ++ bOut.nodes, [],
             aOut.warnings ++ bOut.warnings⟩

/-- `ReactomeLoader.write_neo4j_result_to_file`: fold the loop body over the
result records in order; an exception raised while processing a record
propagates (the counters accumulated so far are lost). -/
def write_neo4j_result_to_file : List NeoRecord → Except String WriteOut
  | [] => .ok ⟨0, 0, [], [], []⟩
  | rec :: rest =>
    match processRecord rec with
    | .error e => .error e
    | .ok h =>
      match write_neo4j_result_to_file rest with
      | .error e => .error e
      | .ok t => .ok (combineWrite h t)

/-- The fixed RETURN clause shared by the queries of `map_ids` and
`rdf_edge_mapping` that alias the relationship variable `r1`. -/
def RETURN_R1 : String :=
  "RETURN refa as a, labels(a) as a_labels, id(a) as a_id, type(r1) as r_type, refb as b, labels(b) as b_labels, id(b) as b_id"

/-- `ReactomeLoader.map_ids` (lines 394-427): build the retrieval cypher for a
rule. Both endpoint types in `CROSS_MAPPING`: traverse the
`referenceEntity|crossReference` hop on both sides (the same relationship
variable `r0` is used for both hops, as in the source); only the subject (or
only the object) eligible: traverse the hop on that side only; neither:
direct relationship with no hop. `switch` re-aliases the MATCH pattern. Every
path assigns a cypher string, so the function is total. -/
def map_ids (s p o : String) (switch : Bool := false) : String :=
  if CROSS_MAPPING.contains s && CROSS_MAPPING.contains o then
    if switch then
      "MATCH (refa)-[r0:referenceEntity|crossReference]-(b:" ++ s ++ ")-[r1:" ++
        p ++ "]->(a:" ++ o ++ ")-[r0:referenceEntity|crossReference]-(refb) " ++
        RETURN_R1
    else
      "MATCH (refa)-[r0:referenceEntity|crossReference]-(a:" ++ s ++ ")-[r1:" ++
        p ++ "]->(b:" ++ o ++ ")-[r0:referenceEntity|crossReference]-(refb) " ++
        RETURN_R1
  else if CROSS_MAPPING.contains s then
    if switch then
      "MATCH (ref)-[r0:referenceEntity|crossReference]-(b:" ++ s ++ ")-[r1:" ++
        p ++ "]->(a:" ++ o ++ ") " ++
        "RETURN ref as a, labels(a) as a_labels, id(a) as a_id, type(r1) as r_type, b, labels(b) as b_labels, id(b) as b_id"
    else
      "MATCH (ref)-[r0:referenceEntity|crossReference]-(a:" ++ s ++ ")-[r1:" ++
        p ++ "]->(b:" ++ o ++ ") " ++
        "RETURN ref as a, labels(a) as a_labels, id(a) as a_id, type(r1) as r_type, b, labels(b) as b_labels, id(b) as b_id"
  else if CROSS_MAPPING.contains o then
    if switch then
      "MATCH (b:" ++ s ++ ")-[r1:" ++ p ++ "]->(a:" ++ o ++
        ")-[r0:referenceEntity|crossReference]-(ref) " ++
        "RETURN a, labels(a) as a_labels, id(a) as a_id, type(r1) as r_type, ref as b, labels(b) as b_labels, id(b) as b_id"
    else
      "MATCH (a:" ++ s ++ ")-[r1:" ++ p ++ "]->(b:" ++ o ++
        ")-[r0:referenceEntity|crossReference]-(ref) " ++
        "RETURN a, labels(a) as a_labels, id(a) as a_id, type(r1) as r_type, ref as b, labels(b) as b_labels, id(b) as b_id"
  else
    if switch then
      "MATCH (b:" ++ s ++ ")-[r:" ++ p ++ "]->(a:" ++ o ++ ") " ++
        "RETURN a, labels(a) as a_labels, id(a) as a_id, type(r) as r_type, b, labels(b) as b_labels, id(b) as b_id"
    else
      "MATCH (a:" ++ s ++ ")-[r:" ++ p ++ "]->(b:" ++ o ++ ") " ++
        "RETURN a, labels(a) as a_labels, id(a) as a_id, type(r) as r_type, b, labels(b) as b_labels, id(b) as b_id"

/-- `ReactomeLoader.rdf_edge_mapping` (lines 429-443): collapse a two-hop
chain through the `CatalystActivity` intermediate into one edge; when neither
endpoint type is `CatalystActivity`, `cypher` stays `None`. The
`o == 'CatalystActivity'` branch concatenates its two string literals with no
separator, exactly as the source does. -/
def rdf_edge_mapping (s p o : String) : Option String :=
  if s = "CatalystActivity" then
    some ("MATCH (a)-[:catalystActivity]->(x:" ++ s ++ ")-[r:activity]->(b:" ++
      o ++ ") " ++
      "RETURN a, labels(a) as a_labels, id(a) as a_id, type(r) as r_type, b, labels(b) as b_labels, id(b) as b_id")
  else if o = "CatalystActivity" then
    some ("MATCH (a:" ++ s ++ ")-[r:" ++ p ++ "]-(x:" ++ o ++
      ")-[rx:catalystActivity]-(b) return a, r, b" ++
      "RETURN a, labels(a) as a_labels, id(a) as a_id, type(r) as r_type, b, labels(b) as b_labels, id(b) as b_id")
  else
    none

/-- The three query buckets accumulated by `ReactomeLoader.extract_data`
(lines 156-158). Entries are `Option String` because
`queries_to_include.append(self.rdf_edge_mapping(...))` can append `None`. -/
structure Buckets where
  queries_to_include : List (Option String)
  queries_to_map : List (Option String)
  queries_to_write : List (Option String)
deriving DecidableEq

/-- Componentwise concatenation of bucket contributions (line order). -/
def Buckets.append (x y : Buckets) : Buckets :=
  ⟨x.queries_to_include ++ y.queries_to_include,
   x.queries_to_map ++ y.queries_to_map,
   x.queries_to_write ++ y.queries_to_write⟩

/-- The routing of one rule-table line (lines 164-181): strip and split on
commas; `line[INCLUDE_COLUMN]` (index 3) raises `IndexError` when the row has
fewer than four columns; otherwise dispatch on the inclusion-mode tag. The
`TO_WRITE` branch is `pass` (its append is commented out in the source), and
an unrecognized tag appends nothing. -/
def routeLine (line : String) : Except String Buckets :=
  match pyStripSplit line with
  | s :: p :: o :: inc :: _ =>
    if RDF_EDGES_TO_INCLUDE.contains inc then
      .ok ⟨[rdf_edge_mapping s p o], [], []⟩
    else if TO_SWITCH.contains inc then
      .ok ⟨[some (map_ids s p o true)], [], []⟩
    else if TO_INCLUDE.contains inc then
      .ok ⟨[some (map_ids s p o false)], [], []⟩
    else if TO_MAP.contains inc then
      .ok ⟨[], [some (map_ids s p o)], []⟩
    else
      .ok ⟨[], [], []⟩
  | _ => .error "IndexError: list index out of range"

/-- Routing of the whole rule table body (the lines after the header), in
order; the first malformed line aborts the run. -/
def routeLines : List String → Except String Buckets
  | [] => .ok ⟨[], [], []⟩
  | l :: ls =>
    match routeLine l with
    | .error e => .error e
    | .ok d =>
      match routeLines ls with
      | .error e => .error e
      | .ok b => .ok (d.append b)

/-- One executed session call of the extraction driver, in execution order:
the property-write loop runs first, then the id-mapping loop (both guarded by
`if cypher_query:` and with their results discarded), then the include loop,
which submits every entry, `None` included, and processes its records. -/
inductive ExecEvent where
  | writeQ (q : Option String)
  | mapQ (q : Option String)
  | includeQ (q : Option String)
deriving DecidableEq

/-- The include loop of `extract_data` (lines 219-226): submit each entry of
`queries_to_include` (with no `if cypher_query:` guard) to the session and
fold `write_neo4j_result_to_file` over the returned records, accumulating the
two counters. -/
def runIncludeQueries (runQuery : Option String → List NeoRecord) :
    List (Option String) → Except String WriteOut
  | [] => .ok ⟨0, 0, [], [], []⟩
  | q :: rest =>
    match write_neo4j_result_to_file (runQuery q) with
    | .error e => .error e
    | .ok h =>
      match runIncludeQueries runQuery rest with
      | .error e => .error e
      | .ok t => .ok (combineWrite h t)

/-- Full result of one `extract_data` run: the two counters of
`parse_metadata`, the nodes, edges and warnings emitted, and the trace of
session calls in execution order. -/
structure RunResult where
  num_source_lines : Nat
  unusable_source_lines : Nat
  nodes : List kgxnode
  edges : List kgxedge
  warnings : List LogWarning
  trace : List ExecEvent
deriving DecidableEq

/-- `ReactomeLoader.extract_data`: drop the header line, route the remaining
rule lines into the three buckets, run the (always guarded) write and map
loops with their results discarded, then run the include loop and return the
counters as `parse_metadata`. The session is the opaque environment
`runQuery`; its responses to the write and map queries are ignored by the
source, so only the include responses feed the record processing. -/
def extract_data (lines : List String)
    (runQuery : Option String → List NeoRecord) : Except String RunResult :=
  match routeLines (lines.drop 1) with
  | .error e => .error e
  | .ok bks =>
    match runIncludeQueries runQuery bks.queries_to_include with
    | .error e => .error e
    | .ok w =>
      .ok { num_source_lines := w.record_count
            unusable_source_lines := w.skipped_record_count
            nodes := w.nodes
            edges := w.edges
            warnings := w.warnings
            trace :=
              (bks.queries_to_write.filter pyTruthyOpt).map ExecEvent.writeQ
                ++ (bks.queries_to_map.filter pyTruthyOpt).map ExecEvent.mapQ
                ++ bks.queries_to_include.map ExecEvent.includeQ }

/-- The record-count observables of a run: everything in a `RunResult` except
the trace of session calls. -/
def obsOf (r : RunResult) :
    Nat × Nat × List kgxnode × List kgxedge × List LogWarning :=
  (r.num_source_lines, r.unusable_source_lines, r.nodes, r.edges, r.warnings)

/-- The record-count observables of a run, computed from the routed buckets:
the composition of bucket routing, the include loop and the observable
projection. -/
def obsRun (runQuery : Option String → List NeoRecord)
    (b : Except String Buckets) :
    Except String (Nat × Nat × List kgxnode × List kgxedge × List LogWarning) :=
  match b with
  | .error e => .error e
  | .ok bks =>
    match runIncludeQueries runQuery bks.queries_to_include with
    | .error e => .error e
    | .ok w =>
      .ok (w.record_count, w.skipped_record_count, w.nodes, w.edges, w.warnings)

/-- Number of record pairs the raw-data source returns across all include
operations of a run (the quantity the spec calls records "seen"). -/
def totalRetrieved (lines : List String)
    (runQuery : Option String → List NeoRecord) : Nat :=
  match routeLines (lines.drop 1) with
  | .ok b => (b.queries_to_include.map (fun q => (runQuery q).length)).sum
  | .error _ => 0

/-- `true` when an event is a property-write session call. -/
def isWriteEvent : ExecEvent → Bool
  | .writeQ _ => true
  | _ => false

/-- `true` when every direct/cross-map/include session call precedes every
property-write session call in the trace: after the first write event only
write events may follow. -/
def retrievalsPrecedeWrites : List ExecEvent → Bool
  | [] => true
  | e :: rest =>
    if isWriteEvent e then rest.all isWriteEvent
    else retrievalsPrecedeWrites rest

/-!
Record-level semantics of the queries built by `map_ids`, over a small model
of the neo4j store. A node pattern `(v:T)` matches a node carrying label `T`;
a relationship pattern `-[r:t]->` matches a directed edge of type `t`;
`-[r0:referenceEntity|crossReference]-` matches an edge of either type in
either direction; distinct relationship variables of one MATCH bind distinct
relationships (edge identity is the position in the edge list). Each
interpreter below transliterates the RETURN clause of the corresponding
cypher string: which pattern variable each of the seven output columns is
read from.
-/

/-- A node of the neo4j store: internal id, labels, properties. -/
structure GNode where
  nid : Nat
  labels : List String
  props : PropMap
deriving DecidableEq

/-- A directed, typed edge of the neo4j store. -/
structure GEdge where
  src : Nat
  typ : String
  dst : Nat
deriving DecidableEq

/-- A neo4j store: nodes and edges. -/
structure NeoGraph where
  nodes : List GNode
  edges : List GEdge
deriving DecidableEq

/-- The node with a given internal id. -/
def findNode (g : NeoGraph) (i : Nat) : Option GNode :=
  g.nodes.find? (fun n => n.nid == i)

/-- The `(ref)-[r0:referenceEntity|crossReference]-(v)` neighbours of the node
with id `i`: pairs of the hop edge's position and the node at its other end. -/
def refNeighbors (g : NeoGraph) (i : Nat) : List (Nat × GNode) :=
  g.edges.enum.flatMap (fun ie =>
    if ie.2.typ == "referenceEntity" || ie.2.typ == "crossReference" then
      if ie.2.src == i then
        match findNode g ie.2.dst with
        | some r => [(ie.1, r)]
        | none => []
      else if ie.2.dst == i then
        match findNode g ie.2.src with
        | some r => [(ie.1, r)]
        | none => []
      else []
    else [])

/-- Records returned by the no-hop fallback queries of `map_ids`
(`MATCH (a:s)-[r:p]->(b:o)` and its `switch` re-aliasing
`MATCH (b:s)-[r:p]->(a:o)`), per matched edge. -/
def directRecordsList (g : NeoGraph) (s p o : String) (switch : Bool) :
    List GEdge → List NeoRecord
  | [] => []
  | e :: es =>
    (if e.typ == p then
      match findNode g e.src, findNode g e.dst with
      | some x, some y =>
        if x.labels.contains s && y.labels.contains o then
          if switch then [⟨y.nid, y.props, y.labels, p, x.nid, x.props, x.labels⟩]
          else [⟨x.nid, x.props, x.labels, p, y.nid, y.props, y.labels⟩]
        else []
      | _, _ => []
    else []) ++ directRecordsList g s p o switch es

/-- Records returned by the no-hop fallback queries of `map_ids` over the
whole store. -/
def directRecords (g : NeoGraph) (s p o : String) (switch : Bool) :
    List NeoRecord :=
  directRecordsList g s p o switch g.edges

/-- Records returned by the subject-side-hop queries of `map_ids` (the
`elif s in CROSS_MAPPING` branch). `switch = false` reads
`MATCH (ref)-[r0:RE|CR]-(a:s)-[r1:p]->(b:o) RETURN ref as a, labels(a),
id(a), type(r1), b, labels(b), id(b)`: the `a` column holds the reference
node's properties while `a_labels`/`a_id` describe the s-typed node.
`switch = true` reads `MATCH (ref)-[r0:RE|CR]-(b:s)-[r1:p]->(a:o)` with the
same RETURN clause: the `a` column still holds the s-side reference node's
properties but `a_labels`/`a_id` now describe the o-typed node, and the `b`
columns describe the s-typed node itself. -/
def sOnlyRecordsList (g : NeoGraph) (s p o : String) (switch : Bool) :
    List (Nat × GEdge) → List NeoRecord
  | [] => []
  | ie :: ies =>
    (if ie.2.typ == p then
      match findNode g ie.2.src, findNode g ie.2.dst with
      | some x, some y =>
        if x.labels.contains s && y.labels.contains o then
          (refNeighbors g x.nid).flatMap (fun jr =>
            if jr.1 ≠ ie.1 then
              if switch then
                [⟨y.nid, jr.2.props, y.labels, p, x.nid, x.props, x.labels⟩]
              else
                [⟨x.nid, jr.2.props, x.labels, p, y.nid, y.props, y.labels⟩]
            else [])
        else []
      | _, _ => []
    else []) ++ sOnlyRecordsList g s p o switch ies

/-- Records returned by the subject-side-hop queries of `map_ids` over the
whole store. -/
def sOnlyRecords (g : NeoGraph) (s p o : String) (switch : Bool) :
    List NeoRecord :=
  sOnlyRecordsList g s p o switch g.edges.enum

/-- Exchange of the subject and object roles of a returned record pair. -/
def swapRecord (r : NeoRecord) : NeoRecord :=
  ⟨r.b_id, r.b, r.b_labels, r.r_type, r.a_id, r.a, r.a_labels⟩

/-!
HGNC loader (`src/parsers/hgnc/src/loadHGNC.py`). The csv layer is the I/O
boundary: `parse_data` is modelled from the point where `csv.DictReader`
yields row dictionaries; only the columns the loop reads are kept.
-/

/-- One row yielded by the `csv.DictReader` of `HGNCLoader.parse_data`,
restricted to the columns the loop reads. -/
structure HRow where
  hgnc_id : String
  symbol : String
  name : String
  locus_group : String
  location : String
  gene_family : String
  gene_family_id : String
  pubmed_id : String
deriving DecidableEq

/-- The edge properties of one gene-to-family edge (lines 150-154): a
`publications` list of `PMID:`-prefixed values when `pubmed_id` is
non-empty. -/
def hgnc_edge_props (r : HRow) : List (String × List String) :=
  if r.pubmed_id.length > 0 then
    [("publications", (pySplitOn '|' r.pubmed_id).map (fun v => "PMID:" ++ v))]
  else []

/-- The `for idx, gene_family_id in enumerate(...)` loop (lines 138-161):
for each family id, look up the family name at the same index
(`gene_family[idx]` raises `IndexError` past the end), create the family node
and the family-to-gene edge. -/
def hgnc_family_entries (fams : List String) (geneId : String)
    (eprops : List (String × List String)) :
    Nat → List String → Except String (List kgxnode × List kgxedge)
  | _, [] => .ok ([], [])
  | idx, gfid :: more =>
    match fams.get? idx with
    | none => .error "IndexError: list index out of range"
    | some famName =>
      match hgnc_family_entries fams geneId eprops (idx + 1) more with
      | .error e => .error e
      | .ok (ns, es) =>
        .ok (⟨HGNC_FAMILY ++ ":" ++ gfid, famName, []⟩ :: ns,
             ⟨HGNC_FAMILY ++ ":" ++ gfid, geneId, none, some "BFO:0000051",
              none, eprops⟩ :: es)

/-- Handling of one data row (lines 129-163): a non-empty `gene_family_id`
yields the gene node followed by the per-family nodes and edges; an empty one
contributes nothing and counts as skipped (third component). -/
def hgnc_row (r : HRow) : Except String (List kgxnode × List kgxedge × Nat) :=
  if r.gene_family_id.length > 0 then
    match hgnc_family_entries (pySplitOn '|' r.gene_family) r.hgnc_id
        (hgnc_edge_props r) 0 (pySplitOn '|' r.gene_family_id) with
    | .error e => .error e
    | .ok (ns, es) =>
      .ok ((⟨r.hgnc_id, r.name,
             [("locus_group", r.locus_group), ("symbol", r.symbol),
              ("location", r.location)]⟩ : kgxnode) :: ns, es, 0)
  else
    .ok ([], [], 1)

/-- Aggregate result of `HGNCLoader.parse_data`: the returned metadata
counters and the caller-owned output lists. -/
structure HGNCOut where
  num_source_lines : Nat
  unusable_source_lines : Nat
  final_node_list : List kgxnode
  final_edge_list : List kgxedge
deriving DecidableEq

/-- The record loop of `HGNCLoader.parse_data` over the data rows (header
already skipped): every row increments the record counter; an `IndexError`
from a row propagates and the counters are lost. -/
def hgnc_rows_loop : List HRow → Except String HGNCOut
  | [] => .ok ⟨0, 0, [], []⟩
  | r :: rest =>
    match hgnc_row r with
    | .error e => .error e
    | .ok (ns, es, sk) =>
      match hgnc_rows_loop rest with
      | .error e => .error e
      | .ok t =>
        .ok ⟨t.num_source_lines + 1, t.unusable_source_lines + sk,
             ns ++ t.final_node_list, es ++ t.final_edge_list⟩

/-- `HGNCLoader.parse_data`: the `first` flag discards the first yielded row
(the column header), then the loop runs over the data rows. -/
def parse_data (rows : List HRow) : Except String HGNCOut :=
  hgnc_rows_loop (rows.drop 1)

/-- `true` when every row with an empty `gene_family_id` contributes no nodes
and no edges and exactly one skip. -/
def emptyFamilyRowsInert (rows : List HRow) : Bool :=
  rows.all (fun r =>
    r.gene_family_id.length != 0
      || decide (hgnc_row r = .ok ([], [], 1)))


/-- `true` exactly when the value is a raised exception. -/
def raisesError {α : Type} : Except String α → Bool
  | .error _ => true
  | .ok _ => false

/-!
Concrete instances used by the counterexamples and witnesses below.
-/

/-- A Species endpoint with `taxId` 9606. -/
def nodeHuman : PropMap := [("taxId", "9606"), ("displayName", "Homo sapiens")]

/-- A Species endpoint with `taxId` 10090. -/
def nodeMouse : PropMap := [("taxId", "10090"), ("displayName", "Mus musculus")]

/-- A record pair whose endpoints both normalize but whose relationship label
`hasEvidence` is not a key of `PREDICATE_MAPPING`. -/
def recUnmappedPredicate : NeoRecord :=
  ⟨1, nodeHuman, ["Species"], "hasEvidence", 2, nodeMouse, ["Species"]⟩

/-- A record pair whose second endpoint carries labels outside every known
type set, so its normalization fails. -/
def recFailedEndpoint : NeoRecord :=
  ⟨1, nodeHuman, ["Species"], "compartment", 2, [], ["Nonexistent"]⟩

/-- A record pair that normalizes on both endpoints with a mapped label. -/
def recBothSpecies : NeoRecord :=
  ⟨1, nodeHuman, ["Species"], "compartment", 2, nodeMouse, ["Species"]⟩

/-- The `process_node_from_neo4j` output for `nodeHuman`. -/
def outHuman : NodeOut :=
  ⟨some "NCBITAXON:9606", [⟨"NCBITAXON:9606", "Homo sapiens", []⟩], []⟩

/-- The `process_node_from_neo4j` output for `nodeMouse`. -/
def outMouse : NodeOut :=
  ⟨some "NCBITAXON:10090", [⟨"NCBITAXON:10090", "Mus musculus", []⟩], []⟩

/-- The `process_node_from_neo4j` output for the failing endpoint of
`recFailedEndpoint`. -/
def outFailed : NodeOut := ⟨none, [], [.nodeNotMapped 2 ["Nonexistent"]]⟩

/-- A store with one cross-mapping-eligible entity (id 1), its reference
entity (id 3) and one Pathway (id 2). -/
def cgC6 : NeoGraph :=
  ⟨[⟨1, ["EntityWithAccessionedSequence"], [("displayName", "protA")]⟩,
    ⟨2, ["Pathway"], [("displayName", "pathB")]⟩,
    ⟨3, ["ReferenceSequence"], [("databaseName", "UniProt"), ("identifier", "P12345")]⟩],
   [⟨3, "referenceEntity", 1⟩, ⟨1, "input", 2⟩]⟩

/-- A rule table holding only an RDF-edge rule with neither endpoint type
equal to `CatalystActivity` (header line first). -/
def linesRdfOnly : List String := ["h", "Pathway,hasEvent,Event,RDF_edges/Include"]

/-- A rule table holding only a direct-include rule (header line first). -/
def linesIncludeOnly : List String := ["h", "GO_Term,compartment,Species,Include"]

/-- A session that returns one well-formed record pair for the `None` query
and nothing for any string query. -/
def envNoneYields : Option String → List NeoRecord :=
  fun q => match q with
  | none => [recBothSpecies]
  | some _ => []

/-- A session that returns a record pair with one failing endpoint for every
query. -/
def envAllFail : Option String → List NeoRecord := fun _ => [recFailedEndpoint]

/-- A session that returns no records for any query. -/
def envEmpty : Option String → List NeoRecord := fun _ => []

/-- The run result of `extract_data` on `linesIncludeOnly` with the empty
session. -/
def resIncludeEmpty : RunResult :=
  (extract_data linesIncludeOnly envEmpty).toOption.getD ⟨0, 0, [], [], [], []⟩

/-- The run result of `extract_data` on `linesIncludeOnly` with the
`envAllFail` session. -/
def resIncludeFail : RunResult :=
  (extract_data linesIncludeOnly envAllFail).toOption.getD ⟨0, 0, [], [], [], []⟩

/-- A three-row HGNC input: header, one usable row with two families, one
row with an empty `gene_family_id`. -/
def hgncWitnessRows : List HRow :=
  [⟨"", "", "", "", "", "", "", ""⟩,
   ⟨"HGNC:5", "ALB", "albumin", "protein-coding gene", "4q13.3",
    "FamA|FamB", "1|2", "111|222"⟩,
   ⟨"HGNC:6", "X", "x gene", "g", "1p1", "", "", ""⟩]

/-- The parse result on `hgncWitnessRows`. -/
def hgncWitnessOut : HGNCOut :=
  (parse_data hgncWitnessRows).toOption.getD ⟨0, 0, [], []⟩

/-! Shared helper lemmas. -/

theorem append_colon_ne_empty (a b : String) : a ++ ":" ++ b ≠ "" := by
  intro h
  have hl := congrArg String.length h
  simp [String.length_append] at hl
  exact absurd hl.1.2 (by decide)

theorem mem_of_containsB {l : List String} {a : String}
    (h : l.contains a = true) : a ∈ l := by
  simpa using h

theorem any_contains_of_mem {l tl : List String} {a : String}
    (hm : a ∈ l) (hc : tl.contains a = true) :
    l.any (fun x => tl.contains x) = true :=
  List.any_eq_true.mpr ⟨a, hm, hc⟩

theorem not_mem_of_containsB {l : List String} {a : String}
    (h : l.contains a = false) : a ∉ l := by
  simpa using h

theorem curie_or_fallback_error (node : PropMap) (k : String)
    (h : lookupAssoc node "databaseName" = none ∨ lookupAssoc node k = none) :
    curie_or_fallback node k = .error ("KeyError: " ++ k ++ " or databaseName") := by
  unfold curie_or_fallback
  rcases h with h | h
  · rw [h]
  · rw [h]
    cases lookupAssoc node "databaseName" <;> rfl

/-- C7: for every retrieved entity labeled "Species" whose property mapping
has a `taxId` value, the normalizer returns `NCBITAXON:<taxId>` (emitting the
corresponding node), never reaching the reactome-stId branch or the failure
branch. -/
theorem C7_species_normalization (node_identity : Nat) (node : PropMap)
    (node_labels : List String) (taxId : String)
    (hlab : node_labels.contains "Species" = true)
    (htax : lookupAssoc node "taxId" = some taxId) :
    process_node_from_neo4j node_identity node node_labels =
      .ok ⟨some (NCBITAXON ++ ":" ++ taxId),
           [⟨NCBITAXON ++ ":" ++ taxId, node_name_of node, node_properties_of node⟩],
           []⟩ := by
  have hmem : "Species" ∈ node_labels := mem_of_containsB hlab
  have hcond : ∃ x ∈ node_labels, x ∈ ON_NODE_MAPPING :=
    ⟨"Species", hmem, by decide⟩
  have hne : (NCBITAXON ++ ":" ++ taxId) ≠ "" := append_colon_ne_empty _ _
  simp [process_node_from_neo4j, compute_node_id, hcond, hmem, htax, hne]

/-- C7 witness: the Species entity with `taxId` 9606 normalizes to
`NCBITAXON:9606`. -/
theorem C7_species_normalization_witness :
    process_node_from_neo4j 5 nodeHuman ["Species"] =
      .ok ⟨some "NCBITAXON:9606", [⟨"NCBITAXON:9606", "Homo sapiens", []⟩], []⟩ := by
  have h := C7_species_normalization 5 nodeHuman ["Species"] "9606"
    (by decide) (by decide)
  exact h.trans (by decide)

/-- C8: a rule row whose inclusion-mode tag is in none of the five tag sets
yields an empty bucket contribution, and routing a table with that row gives
the same buckets as routing the table without it. -/
theorem C8_unknown_tag_ignored (line s p o inc : String) (rest post : List String)
    (hsplit : pyStripSplit line = s :: p :: o :: inc :: rest)
    (h1 : RDF_EDGES_TO_INCLUDE.contains inc = false)
    (h2 : TO_SWITCH.contains inc = false)
    (h3 : TO_INCLUDE.contains inc = false)
    (h4 : TO_MAP.contains inc = false)
    (h5 : TO_WRITE.contains inc = false) :
    routeLine line = .ok ⟨[], [], []⟩ ∧
    routeLines (line :: post) = routeLines post := by
  have n1 : inc ∉ RDF_EDGES_TO_INCLUDE := not_mem_of_containsB h1
  have n2 : inc ∉ TO_SWITCH := not_mem_of_containsB h2
  have n3 : inc ∉ TO_INCLUDE := not_mem_of_containsB h3
  have n4 : inc ∉ TO_MAP := not_mem_of_containsB h4
  have hr : routeLine line = .ok ⟨[], [], []⟩ := by
    simp [routeLine, hsplit, n1, n2, n3, n4]
  refine ⟨hr, ?_⟩
  simp only [routeLines, hr]
  cases routeLines post <;> simp [Buckets.append]

/-- C8 witness: the tag `Bogus/Include` is unrecognized and its row is
dropped. -/
theorem C8_unknown_tag_ignored_witness :
    routeLine "A,b,C,Bogus/Include" = .ok ⟨[], [], []⟩ ∧
    routeLines ["A,b,C,Bogus/Include"] = routeLines [] :=
  C8_unknown_tag_ignored "A,b,C,Bogus/Include" "A" "b" "C" "Bogus/Include" [] []
    (by decide) (by decide) (by decide) (by decide) (by decide) (by decide)

/-- C9: a non-Species entity whose labels intersect the on-node or
cross-mapping sets but whose property mapping lacks `databaseName` (or the
local-part key: `accession` for GO_Term, `identifier` otherwise) makes the
fallback branch raise again, and the exception escapes
`process_node_from_neo4j` and aborts `write_neo4j_result_to_file` without
touching the counters. -/
theorem C9_missing_key_raises (a_id : Nat) (node : PropMap)
    (labels : List String) (r_type : String) (b_id : Nat) (bnode : PropMap)
    (blabels : List String) (rest : List NeoRecord)
    (hsets : (labels.any (fun x => ON_NODE_MAPPING.contains x)
        || labels.any (fun x => CROSS_MAPPING.contains x)) = true)
    (hspec : labels.contains "Species" = false)
    (hkey : (labels.contains "GO_Term" = true ∧
              (lookupAssoc node "databaseName" = none ∨
               lookupAssoc node "accession" = none))
          ∨ (labels.contains "GO_Term" = false ∧
              (lookupAssoc node "databaseName" = none ∨
               lookupAssoc node "identifier" = none))) :
    raisesError (process_node_from_neo4j a_id node labels) = true ∧
    raisesError (write_neo4j_result_to_file
      (⟨a_id, node, labels, r_type, b_id, bnode, blabels⟩ :: rest)) = true := by
  have hsetsP : (∃ x ∈ labels, x ∈ ON_NODE_MAPPING) ∨
      (∃ x ∈ labels, x ∈ CROSS_MAPPING) := by simpa using hsets
  have hspecP : "Species" ∉ labels := not_mem_of_containsB hspec
  have hcid : ∃ e, compute_node_id node labels = .error e := by
    rcases hkey with ⟨hgo, hmiss⟩ | ⟨hgo, hmiss⟩
    · have hgoP : "GO_Term" ∈ labels := mem_of_containsB hgo
      have hred : compute_node_id node labels = curie_or_fallback node "accession" := by
        simp [compute_node_id, hsetsP, hspecP, hgoP]
      exact ⟨"KeyError: " ++ "accession" ++ " or databaseName",
        hred.trans (curie_or_fallback_error node "accession" hmiss)⟩
    · have hgoP : "GO_Term" ∉ labels := not_mem_of_containsB hgo
      have hred : compute_node_id node labels = curie_or_fallback node "identifier" := by
        simp [compute_node_id, hsetsP, hspecP, hgoP]
      exact ⟨"KeyError: " ++ "identifier" ++ " or databaseName",
        hred.trans (curie_or_fallback_error node "identifier" hmiss)⟩
  obtain ⟨e, he⟩ := hcid
  have hpn : process_node_from_neo4j a_id node labels = .error e := by
    simp [process_node_from_neo4j, he]
  have hrec : processRecord ⟨a_id, node, labels, r_type, b_id, bnode, blabels⟩
      = .error e := by
    simp [processRecord, hpn]
  have hw : write_neo4j_result_to_file
      (⟨a_id, node, labels, r_type, b_id, bnode, blabels⟩ :: rest) = .error e := by
    simp [write_neo4j_result_to_file, hrec]
  exact ⟨by simp [raisesError, hpn], by simp [raisesError, hw]⟩

/-- C9 witness: a GO_Term entity with an empty property mapping raises and
the whole result processing aborts. -/
theorem C9_missing_key_raises_witness :
    raisesError (process_node_from_neo4j 7 [] ["GO_Term"]) = true ∧
    raisesError (write_neo4j_result_to_file
      (⟨7, [], ["GO_Term"], "input", 8, [], ["Species"]⟩ :: [])) = true :=
  C9_missing_key_raises 7 [] ["GO_Term"] "input" 8 [] ["Species"] []
    (by decide) (by decide) (Or.inl ⟨by decide, Or.inl (by decide)⟩)

theorem hgnc_row_skip (r : HRow) (ns : List kgxnode) (es : List kgxedge)
    (sk : Nat) (h : hgnc_row r = .ok (ns, es, sk)) :
    sk = (if r.gene_family_id.length == 0 then 1 else 0) := by
  by_cases hz : r.gene_family_id.length = 0
  · rw [hgnc_row, if_neg (by omega)] at h
    injection h with h2
    rw [if_pos (by simpa using hz)]
    exact (congrArg (fun t => t.2.2) h2).symm
  · have hpos : r.gene_family_id.length > 0 := Nat.pos_of_ne_zero hz
    rw [hgnc_row, if_pos hpos] at h
    rw [if_neg (by simpa using hz)]
    cases hfam : hgnc_family_entries (pySplitOn '|' r.gene_family) r.hgnc_id
        (hgnc_edge_props r) 0 (pySplitOn '|' r.gene_family_id) with
    | error e => rw [hfam] at h; exact absurd h (by simp)
    | ok v =>
      rw [hfam] at h
      injection h with h2
      exact (congrArg (fun t => t.2.2) h2).symm

theorem hgnc_row_empty (r : HRow) (hz : r.gene_family_id.length = 0) :
    hgnc_row r = .ok ([], [], 1) := by
  rw [hgnc_row, if_neg (by omega)]

theorem hgnc_loop_counts (l : List HRow) (out : HGNCOut)
    (h : hgnc_rows_loop l = .ok out) :
    out.num_source_lines = l.length ∧
    out.unusable_source_lines =
      (l.filter (fun r => r.gene_family_id.length == 0)).length := by
  induction l generalizing out with
  | nil =>
    rw [hgnc_rows_loop] at h
    injection h with h2
    rw [← h2]
    exact ⟨rfl, rfl⟩
  | cons r rest ih =>
    rw [hgnc_rows_loop] at h
    cases hr : hgnc_row r with
    | error e => rw [hr] at h; exact absurd h (by simp)
    | ok v =>
      obtain ⟨ns, es, sk⟩ := v
      rw [hr] at h
      cases ht : hgnc_rows_loop rest with
      | error e => rw [ht] at h; exact absurd h (by simp)
      | ok t =>
        rw [ht] at h
        injection h with h2
        obtain ⟨ih1, ih2⟩ := ih t ht
        have hsk := hgnc_row_skip r ns es sk hr
        have hn : out.num_source_lines = t.num_source_lines + 1 := by rw [← h2]
        have hu : out.unusable_source_lines = t.unusable_source_lines + sk := by
          rw [← h2]
        constructor
        · rw [hn, ih1, List.length_cons]
        · by_cases hz : r.gene_family_id.length = 0
          · rw [List.filter_cons_of_pos (by simpa using hz), List.length_cons]
            rw [hu, ih2, hsk, if_pos (by simpa using hz)]
          · rw [List.filter_cons_of_neg (by simpa using hz)]
            rw [hu, ih2, hsk, if_neg (by simpa using hz)]
            omega

/-- C10: for every run of the HGNC parse loop, `num_source_lines` counts the
data rows after the header, `unusable_source_lines` counts the rows with an
empty `gene_family_id`, and each such empty row contributes no nodes and no
edges. -/
theorem C10_hgnc_counters (rows : List HRow) (out : HGNCOut)
    (h : parse_data rows = .ok out) :
    out.num_source_lines = (rows.drop 1).length ∧
    out.unusable_source_lines =
      ((rows.drop 1).filter (fun r => r.gene_family_id.length == 0)).length ∧
    emptyFamilyRowsInert (rows.drop 1) = true := by
  obtain ⟨h1, h2⟩ := hgnc_loop_counts (rows.drop 1) out h
  refine ⟨h1, h2, ?_⟩
  rw [emptyFamilyRowsInert, List.all_eq_true]
  intro r _
  by_cases hz : r.gene_family_id.length = 0
  · simp [hz, hgnc_row_empty r hz]
  · simp [hz]

/-- C10 witness: a three-row file (header, one usable row, one with empty
`gene_family_id`) yields counters 2 and 1, and the empty row is inert. -/
theorem C10_hgnc_counters_witness :
    hgncWitnessOut.num_source_lines = (hgncWitnessRows.drop 1).length ∧
    hgncWitnessOut.unusable_source_lines =
      ((hgncWitnessRows.drop 1).filter
        (fun r => r.gene_family_id.length == 0)).length ∧
    emptyFamilyRowsInert (hgncWitnessRows.drop 1) = true :=
  C10_hgnc_counters hgncWitnessRows hgncWitnessOut (by decide)

/-- C1 counterexample: on a record pair whose endpoints both normalize but
whose relationship label `hasEvidence` is not in the predicate table, no edge
is emitted and a warning naming the label is logged, but the skip counter
stays 0 (the record increments the processed-record counter instead), against
the claim that it increments by exactly one. -/
theorem C1_counterexample :
    write_neo4j_result_to_file [recUnmappedPredicate] =
      .ok ⟨1, 0,
           [⟨"NCBITAXON:9606", "Homo sapiens", []⟩,
            ⟨"NCBITAXON:10090", "Mus musculus", []⟩],
           [], [.predicateNotMapped "hasEvidence"]⟩ := by decide

/-- C1 (amended): for every record pair whose endpoints both normalize to
truthy identifiers and whose relationship label is not in the predicate
table, no edge is emitted and a warning naming the unmapped label is logged,
and the record increments the processed-record counter, not the skip
counter. -/
theorem C1_unmapped_predicate (rec : NeoRecord) (aOut bOut : NodeOut)
    (aid bid : String)
    (ha : process_node_from_neo4j rec.a_id rec.a rec.a_labels = .ok aOut)
    (hb : process_node_from_neo4j rec.b_id rec.b rec.b_labels = .ok bOut)
    (haid : aOut.node_id = some aid) (hane : aid ≠ "")
    (hbid : bOut.node_id = some bid) (hbne : bid ≠ "")
    (hpred : lookupAssoc PREDICATE_MAPPING rec.r_type = none) :
    processRecord rec = .ok ⟨1, 0, aOut.nodes ++ bOut.nodes, [],
      aOut.warnings ++ bOut.warnings ++ [.predicateNotMapped rec.r_type]⟩ := by
  simp only [processRecord, ha, hb, haid, hbid]
  rw [if_neg (by simp [hane, hbne])]
  simp [process_edge_from_neo4j, hpred]

/-- C1 witness: the theorem applied to the concrete record pair with the
unmapped label `hasEvidence`. -/
theorem C1_unmapped_predicate_witness :
    processRecord recUnmappedPredicate =
      .ok ⟨1, 0, outHuman.nodes ++ outMouse.nodes, [],
        outHuman.warnings ++ outMouse.warnings ++
          [.predicateNotMapped recUnmappedPredicate.r_type]⟩ :=
  C1_unmapped_predicate recUnmappedPredicate outHuman outMouse
    "NCBITAXON:9606" "NCBITAXON:10090"
    (by decide) (by decide) (by decide) (by decide) (by decide) (by decide)
    (by decide)

/-- C2 counterexample: on a record pair whose second endpoint fails
normalization, the skip counter increments and no edge is written, but the
first endpoint's node IS committed to the output sink, against the claim that
nothing from the record is committed. -/
theorem C2_counterexample :
    Except.map (fun w => (w.nodes, w.skipped_record_count, w.edges))
        (write_neo4j_result_to_file [recFailedEndpoint]) =
      .ok ([⟨"NCBITAXON:9606", "Homo sapiens", []⟩], 1, []) := by decide

/-- C2 (amended): for every record pair in which at least one endpoint's id is
falsy, no edge is written, the skip counter increments by one and the run
continues with the remaining records; however the nodes already emitted for
the record's endpoints (normalization and emission are fused) remain
written. -/
theorem C2_failed_endpoint_skip (rec : NeoRecord) (aOut bOut : NodeOut)
    (ha : process_node_from_neo4j rec.a_id rec.a rec.a_labels = .ok aOut)
    (hb : process_node_from_neo4j rec.b_id rec.b rec.b_labels = .ok bOut)
    (hfail : pyTruthyOpt aOut.node_id = false ∨ pyTruthyOpt bOut.node_id = false) :
    processRecord rec = .ok ⟨0, 1, aOut.nodes ++ bOut.nodes, [],
      aOut.warnings ++ bOut.warnings⟩ ∧
    ∀ rest t, write_neo4j_result_to_file rest = .ok t →
      write_neo4j_result_to_file (rec :: rest) =
        .ok (combineWrite
          ⟨0, 1, aOut.nodes ++ bOut.nodes, [], aOut.warnings ++ bOut.warnings⟩ t) := by
  obtain ⟨anid, ans, aws⟩ := aOut
  obtain ⟨bnid, bns, bws⟩ := bOut
  have h1 : processRecord rec = .ok ⟨0, 1, ans ++ bns, [], aws ++ bws⟩ := by
    simp only [processRecord, ha, hb]
    rcases hfail with hf | hf
    · cases anid with
      | none => cases bnid <;> simp
      | some s =>
        have hs : s = "" := by simpa [pyTruthyOpt] using hf
        cases bnid <;> simp [hs]
    · cases bnid with
      | none => cases anid <;> simp
      | some s =>
        have hs : s = "" := by simpa [pyTruthyOpt] using hf
        cases anid <;> simp [hs]
  refine ⟨h1, ?_⟩
  intro rest t ht
  simp only [write_neo4j_result_to_file, h1, ht]

/-- C2 witness: the theorem applied to the concrete record pair with the
failing second endpoint, continued with an empty remainder. -/
theorem C2_failed_endpoint_skip_witness :
    processRecord recFailedEndpoint =
      .ok ⟨0, 1, outHuman.nodes ++ outFailed.nodes, [],
        outHuman.warnings ++ outFailed.warnings⟩ ∧
    write_neo4j_result_to_file (recFailedEndpoint :: []) =
      .ok (combineWrite
        ⟨0, 1, outHuman.nodes ++ outFailed.nodes, [],
         outHuman.warnings ++ outFailed.warnings⟩ ⟨0, 0, [], [], []⟩) := by
  have h := C2_failed_endpoint_skip recFailedEndpoint outHuman outFailed
    (by decide) (by decide) (Or.inr (by decide))
  exact ⟨h.1, h.2 [] ⟨0, 0, [], [], []⟩ (by decide)⟩

theorem routeLine_write_nil (line : String) (d : Buckets)
    (h : routeLine line = .ok d) : d.queries_to_write = [] := by
  unfold routeLine at h
  split at h
  all_goals try (split at h)
  all_goals try (split at h)
  all_goals try (split at h)
  all_goals try (split at h)
  all_goals first
    | (injection h with h2; rw [← h2]; try rfl)
    | exact Except.noConfusion h

theorem routeLines_write_nil (ls : List String) (b : Buckets)
    (h : routeLines ls = .ok b) : b.queries_to_write = [] := by
  induction ls generalizing b with
  | nil => rw [routeLines] at h; injection h with h2; rw [← h2]
  | cons l ls ih =>
    rw [routeLines] at h
    cases hr : routeLine l with
    | error e => rw [hr] at h; exact absurd h (by simp)
    | ok d =>
      rw [hr] at h
      cases hl : routeLines ls with
      | error e => rw [hl] at h; exact absurd h (by simp)
      | ok b2 =>
        rw [hl] at h
        injection h with h2
        have e1 := routeLine_write_nil l d hr
        have e2 := ih b2 hl
        rw [← h2]
        simp [Buckets.append, e1, e2]

theorem retrievalsPrecedeWrites_of_no_writes (tr : List ExecEvent)
    (h : ∀ e ∈ tr, isWriteEvent e = false) :
    retrievalsPrecedeWrites tr = true := by
  induction tr with
  | nil => rfl
  | cons e rest ih =>
    rw [retrievalsPrecedeWrites,
        if_neg (by simp [h e (List.mem_cons_self e rest)])]
    exact ih (fun x hx => h x (List.mem_cons_of_mem _ hx))

/-- C4: in every run of the extraction driver, every direct/cross-map/include
session call precedes every property-write session call in the execution
trace (the property-write bucket is never populated, so no write call ever
occurs). -/
theorem C4_retrievals_before_writes (lines : List String)
    (runQuery : Option String → List NeoRecord) (res : RunResult)
    (h : extract_data lines runQuery = .ok res) :
    retrievalsPrecedeWrites res.trace = true := by
  unfold extract_data at h
  cases hroute : routeLines (lines.drop 1) with
  | error e => simp only [hroute] at h; exact Except.noConfusion h
  | ok bks =>
    simp only [hroute] at h
    cases hrun : runIncludeQueries runQuery bks.queries_to_include with
    | error e => simp only [hrun] at h; exact Except.noConfusion h
    | ok w =>
      simp only [hrun] at h
      injection h with h2
      have hwn : bks.queries_to_write = [] := routeLines_write_nil _ _ hroute
      have htr : res.trace =
          (bks.queries_to_map.filter pyTruthyOpt).map ExecEvent.mapQ
            ++ bks.queries_to_include.map ExecEvent.includeQ := by
        rw [← h2]
        simp [hwn]
      rw [htr]
      apply retrievalsPrecedeWrites_of_no_writes
      intro e he
      rcases List.mem_append.mp he with he | he
      · obtain ⟨q, _, rfl⟩ := List.mem_map.mp he
        rfl
      · obtain ⟨q, _, rfl⟩ := List.mem_map.mp he
        rfl

/-- C4 witness: the theorem applied to the one-rule table with the empty
session. -/
theorem C4_retrievals_before_writes_witness :
    retrievalsPrecedeWrites resIncludeEmpty.trace = true :=
  C4_retrievals_before_writes linesIncludeOnly envEmpty resIncludeEmpty
    (by decide)

theorem processRecord_counts (rec : NeoRecord) (w : WriteOut)
    (h : processRecord rec = .ok w) :
    w.record_count + w.skipped_record_count = 1 := by
  unfold processRecord at h
  cases ha : process_node_from_neo4j rec.a_id rec.a rec.a_labels with
  | error e => simp only [ha] at h; exact Except.noConfusion h
  | ok aOut =>
    simp only [ha] at h
    cases hb : process_node_from_neo4j rec.b_id rec.b rec.b_labels with
    | error e => simp only [hb] at h; exact Except.noConfusion h
    | ok bOut =>
      simp only [hb] at h
      split at h
      · split at h
        · injection h with h2; rw [← h2]; rfl
        · injection h with h2; rw [← h2]; rfl
      · injection h with h2; rw [← h2]; rfl

theorem write_counts (records : List NeoRecord) (w : WriteOut)
    (h : write_neo4j_result_to_file records = .ok w) :
    w.record_count + w.skipped_record_count = records.length := by
  induction records generalizing w with
  | nil =>
    rw [write_neo4j_result_to_file] at h
    injection h with h2
    rw [← h2]
    rfl
  | cons rec rest ih =>
    rw [write_neo4j_result_to_file] at h
    cases hr : processRecord rec with
    | error e => rw [hr] at h; exact absurd h (by simp)
    | ok hd =>
      rw [hr] at h
      cases ht : write_neo4j_result_to_file rest with
      | error e => rw [ht] at h; exact absurd h (by simp)
      | ok t =>
        rw [ht] at h
        injection h with h2
        have hhd := processRecord_counts rec hd hr
        have htl := ih t ht
        have hsum : w.record_count = hd.record_count + t.record_count ∧
            w.skipped_record_count =
              hd.skipped_record_count + t.skipped_record_count := by
          rw [← h2]; exact ⟨rfl, rfl⟩
        obtain ⟨hs1, hs2⟩ := hsum
        rw [List.length_cons]
        omega

theorem runInclude_counts (runQuery : Option String → List NeoRecord)
    (qs : List (Option String)) (w : WriteOut)
    (h : runIncludeQueries runQuery qs = .ok w) :
    w.record_count + w.skipped_record_count =
      (qs.map (fun q => (runQuery q).length)).sum := by
  induction qs generalizing w with
  | nil => rw [runIncludeQueries] at h; injection h with h2; rw [← h2]; rfl
  | cons q rest ih =>
    rw [runIncludeQueries] at h
    cases hw : write_neo4j_result_to_file (runQuery q) with
    | error e => rw [hw] at h; exact absurd h (by simp)
    | ok hd =>
      rw [hw] at h
      cases ht : runIncludeQueries runQuery rest with
      | error e => rw [ht] at h; exact absurd h (by simp)
      | ok t =>
        rw [ht] at h
        injection h with h2
        have hhd := write_counts (runQuery q) hd hw
        have htl := ih t ht
        have hsum : w.record_count = hd.record_count + t.record_count ∧
            w.skipped_record_count =
              hd.skipped_record_count + t.skipped_record_count := by
          rw [← h2]; exact ⟨rfl, rfl⟩
        obtain ⟨hs1, hs2⟩ := hsum
        rw [List.map_cons, List.sum_cons]
        omega

/-- C5 counterexample: on a run whose single include operation retrieves one
record pair with a failing endpoint, `num_source_lines` is 0 while one record
pair was retrieved, against the claim that the total-seen count equals the
number of pairs retrieved. -/
theorem C5_counterexample :
    Except.map (fun r => r.num_source_lines)
        (extract_data linesIncludeOnly envAllFail) = .ok 0 ∧
    totalRetrieved linesIncludeOnly envAllFail = 1 :=
  ⟨by decide, by decide⟩

/-- C5 (amended): for every run, `num_source_lines` counts only the retrieved
record pairs whose endpoints both normalized; the number of record pairs
retrieved across all include operations equals `num_source_lines +
unusable_source_lines`. -/
theorem C5_seen_counter (lines : List String)
    (runQuery : Option String → List NeoRecord) (res : RunResult)
    (h : extract_data lines runQuery = .ok res) :
    res.num_source_lines + res.unusable_source_lines =
      totalRetrieved lines runQuery := by
  unfold extract_data at h
  unfold totalRetrieved
  cases hroute : routeLines (lines.drop 1) with
  | error e => simp only [hroute] at h; exact Except.noConfusion h
  | ok bks =>
    simp only [hroute] at h ⊢
    cases hrun : runIncludeQueries runQuery bks.queries_to_include with
    | error e => simp only [hrun] at h; exact Except.noConfusion h
    | ok w =>
      simp only [hrun] at h
      injection h with h2
      have hc := runInclude_counts runQuery bks.queries_to_include w hrun
      have e1 : res.num_source_lines = w.record_count := by rw [← h2]
      have e2 : res.unusable_source_lines = w.skipped_record_count := by
        rw [← h2]
      rw [e1, e2, hc]

/-- C5 witness: the theorem applied to the one-rule table and the session
that returns one failing record pair. -/
theorem C5_seen_counter_witness :
    resIncludeFail.num_source_lines + resIncludeFail.unusable_source_lines =
      totalRetrieved linesIncludeOnly envAllFail :=
  C5_seen_counter linesIncludeOnly envAllFail resIncludeFail (by decide)

theorem Buckets.nil_append (b : Buckets) :
    Buckets.append ⟨[], [], []⟩ b = b := by
  simp [Buckets.append]

theorem Buckets.append_assoc (a b c : Buckets) :
    (a.append b).append c = a.append (b.append c) := by
  simp [Buckets.append]

theorem routeLines_append (xs ys : List String) :
    routeLines (xs ++ ys) =
      match routeLines xs with
      | .error e => .error e
      | .ok a =>
        match routeLines ys with
        | .error e => .error e
        | .ok b => .ok (a.append b) := by
  induction xs with
  | nil =>
    show routeLines ys = _
    cases hys : routeLines ys with
    | error e => simp [routeLines, hys]
    | ok b => simp [routeLines, hys, Buckets.nil_append]
  | cons x xs ih =>
    show routeLines (x :: (xs ++ ys)) = _
    rw [routeLines, ih, routeLines]
    cases hx : routeLine x with
    | error e => rfl
    | ok d =>
      cases hxs : routeLines xs with
      | error e => rfl
      | ok a =>
        cases hys : routeLines ys with
        | error e => rfl
        | ok b => simp [Buckets.append_assoc]

theorem combineWrite_nil_left (t : WriteOut) :
    combineWrite ⟨0, 0, [], [], []⟩ t = t := by
  simp [combineWrite]

theorem runInclude_skip_none (runQuery : Option String → List NeoRecord)
    (henv : runQuery none = []) (xs ys : List (Option String)) :
    runIncludeQueries runQuery (xs ++ none :: ys) =
      runIncludeQueries runQuery (xs ++ ys) := by
  induction xs with
  | nil =>
    show runIncludeQueries runQuery (none :: ys) = _
    cases hys : runIncludeQueries runQuery ys with
    | error e =>
      simp [runIncludeQueries, henv, hys, write_neo4j_result_to_file]
    | ok t =>
      simp [runIncludeQueries, henv, hys, write_neo4j_result_to_file,
            combineWrite_nil_left]
  | cons x xs ih =>
    show runIncludeQueries runQuery (x :: (xs ++ none :: ys)) = _
    simp only [runIncludeQueries]
    rw [ih]
    rfl

theorem routeLine_rdf (line s p o : String) (rest : List String)
    (hsplit : pyStripSplit line = s :: p :: o :: "RDF_edges/Include" :: rest) :
    routeLine line = .ok ⟨[rdf_edge_mapping s p o], [], []⟩ := by
  unfold routeLine
  rw [hsplit]
  rfl

theorem rdf_edge_mapping_none (s p o : String)
    (hs : s ≠ "CatalystActivity") (ho : o ≠ "CatalystActivity") :
    rdf_edge_mapping s p o = none := by
  simp [rdf_edge_mapping, hs, ho]

theorem extract_data_obs (lines : List String)
    (runQuery : Option String → List NeoRecord) :
    Except.map obsOf (extract_data lines runQuery) =
      obsRun runQuery (routeLines (lines.drop 1)) := by
  unfold extract_data obsRun
  cases hr : routeLines (lines.drop 1) with
  | error e => rfl
  | ok bks =>
    show Except.map obsOf
        (match runIncludeQueries runQuery bks.queries_to_include with
         | .error e => .error e
         | .ok w =>
           .ok { num_source_lines := w.record_count
                 unusable_source_lines := w.skipped_record_count
                 nodes := w.nodes
                 edges := w.edges
                 warnings := w.warnings
                 trace :=
                   (bks.queries_to_write.filter pyTruthyOpt).map ExecEvent.writeQ
                     ++ (bks.queries_to_map.filter pyTruthyOpt).map ExecEvent.mapQ
                     ++ bks.queries_to_include.map ExecEvent.includeQ }) =
      match runIncludeQueries runQuery bks.queries_to_include with
      | .error e => .error e
      | .ok w =>
        .ok (w.record_count, w.skipped_record_count, w.nodes, w.edges,
             w.warnings)
    cases runIncludeQueries runQuery bks.queries_to_include with
    | error e => rfl
    | ok w => rfl

theorem obsRun_ok_congr (runQuery : Option String → List NeoRecord)
    (x y : Buckets)
    (hinc : runIncludeQueries runQuery x.queries_to_include =
      runIncludeQueries runQuery y.queries_to_include) :
    obsRun runQuery (.ok x) = obsRun runQuery (.ok y) := by
  show (match runIncludeQueries runQuery x.queries_to_include with
        | Except.error e => Except.error e
        | Except.ok w =>
          Except.ok (w.record_count, w.skipped_record_count, w.nodes, w.edges,
               w.warnings)) =
    match runIncludeQueries runQuery y.queries_to_include with
    | Except.error e => Except.error e
    | Except.ok w =>
      Except.ok (w.record_count, w.skipped_record_count, w.nodes, w.edges,
           w.warnings)
  rw [hinc]

/-- C3 (amended): for an RDF-edge rule whose endpoint types are both
different from `CatalystActivity`, the builder produces no operation (`None`);
the driver still submits that `None` entry to the data source (the include
loop has no null-query guard), but provided the source returns no records for
the `None` query, the run's counters, nodes, edges and warnings are exactly
those of the same run without the rule. -/
theorem C3_rdf_rule_inert (hdr line s p o : String) (rest : List String)
    (pre post : List String) (runQuery : Option String → List NeoRecord)
    (hsplit : pyStripSplit line = s :: p :: o :: "RDF_edges/Include" :: rest)
    (hs : s ≠ "CatalystActivity") (ho : o ≠ "CatalystActivity")
    (henv : runQuery none = []) :
    rdf_edge_mapping s p o = none ∧
    Except.map obsOf (extract_data (hdr :: (pre ++ line :: post)) runQuery)
      = Except.map obsOf (extract_data (hdr :: (pre ++ post)) runQuery) := by
  have hnone := rdf_edge_mapping_none s p o hs ho
  refine ⟨hnone, ?_⟩
  have hline : routeLine line = .ok ⟨[none], [], []⟩ := by
    rw [routeLine_rdf line s p o rest hsplit, hnone]
  rw [extract_data_obs, extract_data_obs]
  simp only [List.drop_succ_cons, List.drop_zero]
  rw [routeLines_append pre (line :: post), routeLines_append pre post]
  have hlp : routeLines (line :: post) =
      match routeLines post with
      | .error e => .error e
      | .ok b => .ok (Buckets.append ⟨[none], [], []⟩ b) := by
    rw [routeLines]
    simp only [hline]
  rw [hlp]
  cases hpre : routeLines pre with
  | error e => rfl
  | ok a =>
    cases hpost : routeLines post with
    | error e => rfl
    | ok b =>
      show obsRun runQuery
          (.ok (a.append (Buckets.append ⟨[none], [], []⟩ b))) =
        obsRun runQuery (.ok (a.append b))
      apply obsRun_ok_congr
      have h1 : (a.append (Buckets.append ⟨[none], [], []⟩ b)).queries_to_include
          = a.queries_to_include ++ none :: b.queries_to_include := by
        simp [Buckets.append]
      have h2 : (a.append b).queries_to_include
          = a.queries_to_include ++ b.queries_to_include := rfl
      rw [h1, h2]
      exact runInclude_skip_none runQuery henv _ _

/-- C3 witness: the theorem applied to a concrete two-rule table with the
empty session. -/
theorem C3_rdf_rule_inert_witness :
    rdf_edge_mapping "Pathway" "hasEvent" "Event" = none ∧
    Except.map obsOf (extract_data
        ("h" :: ([] ++ "Pathway,hasEvent,Event,RDF_edges/Include" ::
          ["GO_Term,compartment,Species,Include"])) envEmpty)
      = Except.map obsOf (extract_data
        ("h" :: ([] ++ ["GO_Term,compartment,Species,Include"])) envEmpty) :=
  C3_rdf_rule_inert "h" "Pathway,hasEvent,Event,RDF_edges/Include"
    "Pathway" "hasEvent" "Event" [] []
    ["GO_Term,compartment,Species,Include"] envEmpty
    (by decide) (by decide) (by decide) (by decide)

/-- C3 counterexample: with an RDF-edge rule whose endpoints are not
`CatalystActivity` as the only rule, the driver still submits the `None`
operation; under a data source that answers the `None` query with one record
pair, the run processes one record and emits an edge, against the claim that
zero records are processed for such a rule and the run is not disturbed. -/
theorem C3_counterexample :
    extract_data linesRdfOnly envNoneYields =
      .ok { num_source_lines := 1, unusable_source_lines := 0,
            nodes := [⟨"NCBITAXON:9606", "Homo sapiens", []⟩,
                      ⟨"NCBITAXON:10090", "Mus musculus", []⟩],
            edges := [⟨"NCBITAXON:9606", "NCBITAXON:10090",
                       some "biolink:occurs_in", none,
                       some "infores:reactome", []⟩],
            warnings := [], trace := [.includeQ none] } := by decide

theorem directRecordsList_swap (g : NeoGraph) (s p o : String)
    (es : List GEdge) :
    directRecordsList g s p o true es =
      (directRecordsList g s p o false es).map swapRecord := by
  induction es with
  | nil => rfl
  | cons e es ih =>
    simp only [directRecordsList, List.map_append, ih]
    congr 1
    split
    · split
      · split
        · simp [swapRecord]
        · rfl
      · rfl
    · rfl

/-- C6 (amended): the cross-mapping builder selects the queries exactly by
endpoint-type eligibility — both eligible: reference hop on both endpoints;
only the subject (or only the object) eligible: the hop on that side only;
neither: direct retrieval with no hop. With `switch=true`, the no-hop
fallback operation returns the same pairs with subject and object roles
swapped; the hop variants do NOT return the role-swapped pair (in the
subject-side-hop query, `switch=true` keeps the subject's reference node in
the `a` column while re-aliasing labels and ids, witnessed on the concrete
store `cgC6`). -/
theorem C6_map_ids_branches (s p o : String) (sw : Bool) (g : NeoGraph) :
    (CROSS_MAPPING.contains s = true → CROSS_MAPPING.contains o = true →
      map_ids s p o sw =
        (if sw then
          "MATCH (refa)-[r0:referenceEntity|crossReference]-(b:" ++ s ++
            ")-[r1:" ++ p ++ "]->(a:" ++ o ++
            ")-[r0:referenceEntity|crossReference]-(refb) " ++ RETURN_R1
        else
          "MATCH (refa)-[r0:referenceEntity|crossReference]-(a:" ++ s ++
            ")-[r1:" ++ p ++ "]->(b:" ++ o ++
            ")-[r0:referenceEntity|crossReference]-(refb) " ++ RETURN_R1)) ∧
    (CROSS_MAPPING.contains s = true → CROSS_MAPPING.contains o = false →
      map_ids s p o sw =
        (if sw then
          "MATCH (ref)-[r0:referenceEntity|crossReference]-(b:" ++ s ++
            ")-[r1:" ++ p ++ "]->(a:" ++ o ++ ") " ++
            "RETURN ref as a, labels(a) as a_labels, id(a) as a_id, type(r1) as r_type, b, labels(b) as b_labels, id(b) as b_id"
        else
          "MATCH (ref)-[r0:referenceEntity|crossReference]-(a:" ++ s ++
            ")-[r1:" ++ p ++ "]->(b:" ++ o ++ ") " ++
            "RETURN ref as a, labels(a) as a_labels, id(a) as a_id, type(r1) as r_type, b, labels(b) as b_labels, id(b) as b_id")) ∧
    (CROSS_MAPPING.contains s = false → CROSS_MAPPING.contains o = true →
      map_ids s p o sw =
        (if sw then
          "MATCH (b:" ++ s ++ ")-[r1:" ++ p ++ "]->(a:" ++ o ++
            ")-[r0:referenceEntity|crossReference]-(ref) " ++
            "RETURN a, labels(a) as a_labels, id(a) as a_id, type(r1) as r_type, ref as b, labels(b) as b_labels, id(b) as b_id"
        else
          "MATCH (a:" ++ s ++ ")-[r1:" ++ p ++ "]->(b:" ++ o ++
            ")-[r0:referenceEntity|crossReference]-(ref) " ++
            "RETURN a, labels(a) as a_labels, id(a) as a_id, type(r1) as r_type, ref as b, labels(b) as b_labels, id(b) as b_id")) ∧
    (CROSS_MAPPING.contains s = false → CROSS_MAPPING.contains o = false →
      map_ids s p o sw =
        (if sw then
          "MATCH (b:" ++ s ++ ")-[r:" ++ p ++ "]->(a:" ++ o ++ ") " ++
            "RETURN a, labels(a) as a_labels, id(a) as a_id, type(r) as r_type, b, labels(b) as b_labels, id(b) as b_id"
        else
          "MATCH (a:" ++ s ++ ")-[r:" ++ p ++ "]->(b:" ++ o ++ ") " ++
            "RETURN a, labels(a) as a_labels, id(a) as a_id, type(r) as r_type, b, labels(b) as b_labels, id(b) as b_id")) ∧
    directRecords g s p o true = (directRecords g s p o false).map swapRecord ∧
    sOnlyRecords cgC6 "EntityWithAccessionedSequence" "input" "Pathway" true
      ≠ (sOnlyRecords cgC6 "EntityWithAccessionedSequence" "input" "Pathway"
          false).map swapRecord := by
  refine ⟨?_, ?_, ?_, ?_, ?_, ?_⟩
  · intro h1 h2
    have m1 : s ∈ CROSS_MAPPING := mem_of_containsB h1
    have m2 : o ∈ CROSS_MAPPING := mem_of_containsB h2
    simp [map_ids, m1, m2]
  · intro h1 h2
    have m1 : s ∈ CROSS_MAPPING := mem_of_containsB h1
    have m2 : o ∉ CROSS_MAPPING := not_mem_of_containsB h2
    simp [map_ids, m1, m2]
  · intro h1 h2
    have m1 : s ∉ CROSS_MAPPING := not_mem_of_containsB h1
    have m2 : o ∈ CROSS_MAPPING := mem_of_containsB h2
    simp [map_ids, m1, m2]
  · intro h1 h2
    have m1 : s ∉ CROSS_MAPPING := not_mem_of_containsB h1
    have m2 : o ∉ CROSS_MAPPING := not_mem_of_containsB h2
    simp [map_ids, m1, m2]
  · exact directRecordsList_swap g s p o g.edges
  · decide

/-- C6 witness: the subject-side-hop branch equation at a concrete eligible
subject type. -/
theorem C6_map_ids_branches_witness :
    map_ids "EntityWithAccessionedSequence" "input" "Pathway" false =
      "MATCH (ref)-[r0:referenceEntity|crossReference]-(a:EntityWithAccessionedSequence)-[r1:input]->(b:Pathway) RETURN ref as a, labels(a) as a_labels, id(a) as a_id, type(r1) as r_type, b, labels(b) as b_labels, id(b) as b_id" := by
  have h := (C6_map_ids_branches "EntityWithAccessionedSequence" "input"
    "Pathway" false cgC6).2.1 (by decide) (by decide)
  exact h.trans (by decide)

/-- C6 counterexample: in the subject-side-hop branch the `switch=true` query
does not return the role-swapped pair: on the store `cgC6` it pairs the
subject's reference properties with the object's labels and id, which differs
from swapping the `switch=false` records. -/
theorem C6_counterexample :
    map_ids "EntityWithAccessionedSequence" "input" "Pathway" true =
      "MATCH (ref)-[r0:referenceEntity|crossReference]-(b:EntityWithAccessionedSequence)-[r1:input]->(a:Pathway) RETURN ref as a, labels(a) as a_labels, id(a) as a_id, type(r1) as r_type, b, labels(b) as b_labels, id(b) as b_id" ∧
    sOnlyRecords cgC6 "EntityWithAccessionedSequence" "input" "Pathway" true
      ≠ (sOnlyRecords cgC6 "EntityWithAccessionedSequence" "input" "Pathway"
          false).map swapRecord :=
  ⟨by decide, by decide⟩
